import Mathlib

/-!
Verification of the Attendance Lifecycle & Session Workflow of the
business-management portal in `src/index.tsx`.

The embedding is shallow and value-semantic:
* JS instants (`Date.now()`, ISO timestamp strings) are modelled by their
  epoch-millisecond value (`Nat`); a record's `timestamp : string` field is
  carried as that number, and `new Date(ts).getTime()` is the identity on it.
* `today` (`new Date().toISOString().split('T')[0]`, a `YYYY-MM-DD` string)
  is an explicit `String` parameter of every operation that reads the clock,
  as is `nowMs` for `Date.now()`.
* A rejected / thrown `Promise` is `Except.error msg`; `alert(msg)` is an
  `Option String` message channel in the result.
* The module-level mock arrays and the React `useState` collections are
  explicit state threaded through the operations.
-/

inductive SalaryType where
  | daily | monthly | piece_rate
deriving DecidableEq, Repr

inductive UserStatus where
  | active | terminated
deriving DecidableEq, Repr

inductive AttendanceStatus where
  | pending | approved | rejected
deriving DecidableEq, Repr

inductive Role where
  | admin | employee
deriving DecidableEq, Repr

structure User where
  id : String
  name : String
  role : Role
  jobProfile : String
  salaryType : SalaryType
  salaryAmount : Nat
  status : UserStatus
  imageUrl : Option String
deriving DecidableEq, Repr

structure Attendance where
  id : String
  userId : String
  date : String
  /-- ISO timestamp string, modelled as epoch milliseconds. -/
  timestamp : Nat
  status : AttendanceStatus
deriving DecidableEq, Repr

structure InventoryItem where
  id : String
  name : String
  color : String
  sizes : List (String × Nat)
deriving DecidableEq, Repr

/-- Seed data `mockUsers` (src/index.tsx lines 90-95). -/
def mockUsers : List User :=
  [ ⟨"user-1", "Admin User", .admin, "Manager", .monthly, 50000, .active,
      some "https://i.pravatar.cc/150?u=admin"⟩,
    ⟨"user-2", "Sunita Sharma", .employee, "Cutter", .daily, 800, .active,
      some "https://i.pravatar.cc/150?u=sunita"⟩,
    ⟨"user-3", "Ramesh Kumar", .employee, "Stitcher", .piece_rate, 15, .active,
      some "https://i.pravatar.cc/150?u=ramesh"⟩,
    ⟨"user-4", "Geeta Devi", .employee, "Stitcher", .piece_rate, 15, .terminated,
      some "https://i.pravatar.cc/150?u=geeta"⟩ ]

/-- Seed data `mockAttendance` (src/index.tsx lines 97-100);
`2024-07-28T09:05:12Z` = 1722157512000 ms, `2024-07-28T09:10:24Z` = 1722157824000 ms. -/
def mockAttendance : List Attendance :=
  [ ⟨"att-1", "user-2", "2024-07-28", 1722157512000, .approved⟩,
    ⟨"att-2", "user-3", "2024-07-28", 1722157824000, .pending⟩ ]

/-- Seed data `mockInventory` (src/index.tsx lines 102-105). -/
def mockInventory : List InventoryItem :=
  [ ⟨"TN-001", "Men's Formal Shirt", "White", [("S", 10), ("M", 25), ("L", 15), ("XL", 5)]⟩,
    ⟨"TN-002", "Ladies Kurti", "Blue", [("M", 30), ("L", 20)]⟩ ]

namespace mockApi

/-- The duplicate check `mockAttendance.some(a => a.userId === userId && a.date === today)`
computed inside `mockApi.markAttendance` (src/index.tsx line 114). -/
def alreadyMarked (store : List Attendance) (userId : String) (today : String) : Bool :=
  store.any fun a => a.userId == userId && a.date == today

/-- `mockApi.markAttendance` (src/index.tsx lines 111-129): computes `alreadyMarked`,
but the guard's body is empty (only a comment), so the function unconditionally
builds `newRecord` with id `att-${Date.now()}`, pushes it onto the mock store and
resolves with it.  Returns the resolved record and the updated mock store. -/
def markAttendance (store : List Attendance) (userId : String)
    (today : String) (nowMs : Nat) : Attendance × List Attendance :=
  let _alreadyMarked := alreadyMarked store userId today
  let newRecord : Attendance :=
    { id := "att-" ++ toString nowMs
      userId := userId
      date := today
      timestamp := nowMs
      status := .pending }
  (newRecord, store ++ [newRecord])

/-- In-place mutation `record.status = status` of the record returned by
`mockAttendance.find(a => a.id === attId)`: only the first record whose id
matches is overwritten. -/
def setStatusFirst : List Attendance → String → AttendanceStatus → List Attendance
  | [], _, _ => []
  | a :: rest, attId, st =>
    if a.id == attId then { a with status := st } :: rest
    else a :: setStatusFirst rest attId st

/-- `mockApi.updateAttendanceStatus` (src/index.tsx lines 130-141): looks the record
up by id; if found, overwrites its status in place (no check of the current status,
no check of the caller's role) and resolves with a copy; otherwise rejects with
`Record not found`. -/
def updateAttendanceStatus (store : List Attendance) (attId : String)
    (status : AttendanceStatus) : Except String (Attendance × List Attendance) :=
  match store.find? (fun a => a.id == attId) with
  | some record => .ok ({ record with status := status }, setStatusFirst store attId status)
  | none => .error "Record not found"

end mockApi

namespace AppProvider

/-- `AppProvider.markAttendance` (src/index.tsx lines 213-221), parametrised by the
outcome of the awaited `api.markAttendance` call: on success appends the new record
to the React `attendance` state and alerts a success message; on failure leaves the
state alone and alerts the error message.  Result: (new attendance state, alert). -/
def markAttendance (attendance : List Attendance)
    (apiResult : Except String Attendance) : List Attendance × Option String :=
  match apiResult with
  | .ok newRecord =>
    (attendance ++ [newRecord], some "Attendance marked successfully! Awaiting admin approval.")
  | .error e => (attendance, some e)

/-- `AppProvider.updateAttendanceStatus` (src/index.tsx lines 223-230), parametrised
by the outcome of the awaited `api.updateAttendanceStatus` call: on success replaces
every state record whose id is `attId` by the returned record; on failure leaves the
state alone and alerts the error message. -/
def updateAttendanceStatus (attendance : List Attendance) (attId : String)
    (apiResult : Except String Attendance) : List Attendance × Option String :=
  match apiResult with
  | .ok updatedRecord =>
    (attendance.map fun att => if att.id == attId then updatedRecord else att, none)
  | .error e => (attendance, some e)

end AppProvider

/-- The end-to-end `markPresent` path as built: `AppProvider.markAttendance`
awaiting `mockApi.markAttendance` (which always resolves).  State is the pair
(mock store, React attendance state); the result also carries the alert. -/
def systemMarkAttendance (mockStore appStore : List Attendance) (u : User)
    (today : String) (nowMs : Nat) :
    Attendance × List Attendance × List Attendance × Option String :=
  let (newRecord, mockStore') := mockApi.markAttendance mockStore u.id today nowMs
  let (appStore', msg) := AppProvider.markAttendance appStore (.ok newRecord)
  (newRecord, mockStore', appStore', msg)

/-- The end-to-end review path as built: `AppProvider.updateAttendanceStatus`
awaiting `mockApi.updateAttendanceStatus`.  Neither function receives the acting
identity: the source performs no role check anywhere on this path (the `acting`
parameter records the session holder on whose behalf the UI issues the call and
is not consulted by the code). -/
def systemReviewAttendance (acting : User) (mockStore appStore : List Attendance)
    (attId : String) (decision : AttendanceStatus) :
    List Attendance × List Attendance × Option String :=
  let _ := acting
  match mockApi.updateAttendanceStatus mockStore attId decision with
  | .ok (updatedRecord, mockStore') =>
    let (appStore', msg) := AppProvider.updateAttendanceStatus appStore attId (.ok updatedRecord)
    (mockStore', appStore', msg)
  | .error e =>
    let (appStore', msg) := AppProvider.updateAttendanceStatus appStore attId (.error e)
    (mockStore, appStore', msg)

/-- `LoginScreen.handleLogin` (src/index.tsx lines 294-301): finds the user by the
selected id; logs in iff found and active, otherwise alerts a single combined
message that does not distinguish the two failure causes. -/
def handleLogin (users : List User) (selectedUserId : String) : Except String User :=
  match users.find? (fun u => u.id == selectedUserId) with
  | some user =>
    if user.status = .active then .ok user
    else .error "This user is terminated or does not exist."
  | none => .error "This user is terminated or does not exist."

/-- The admin display ordering (src/index.tsx line 496):
`[...attendance].sort((a, b) => new Date(b.timestamp).getTime() - new Date(a.timestamp).getTime())`
— a stable sort of a copy, by timestamp descending. -/
def sortedAttendance (attendance : List Attendance) : List Attendance :=
  attendance.mergeSort fun a b => b.timestamp ≤ a.timestamp

/-- What the attendance page renders (src/index.tsx lines 474-535), reduced to the
lifecycle-relevant content: employees see the mark-present panel (button only when
no own record for today exists); admins see the table of all records sorted for
display. -/
inductive AttendanceView where
  | employeeView (markButtonShown : Bool) (statusShown : Option AttendanceStatus)
  | adminView (rows : List Attendance)
deriving DecidableEq, Repr

/-- `AttendanceManagement` dispatch (src/index.tsx lines 480-535). -/
def attendanceManagementView (loggedInUser : User) (attendance : List Attendance)
    (today : String) : AttendanceView :=
  if loggedInUser.role = .employee then
    match attendance.find? (fun a => a.userId == loggedInUser.id && a.date == today) with
    | some myAttendanceToday => .employeeView false (some myAttendanceToday.status)
    | none => .employeeView true none
  else
    .adminView (sortedAttendance attendance)

/-- Guard on the Approve/Reject buttons in the admin table
(src/index.tsx line 522: `att.status === 'pending' && ...`). -/
def reviewActionsShown (att : Attendance) : Bool :=
  att.status == .pending

/-- The React state held by `AppProvider` (src/index.tsx lines 176-181). -/
structure AppState where
  users : List User
  attendance : List Attendance
  inventory : List InventoryItem
  loggedInUser : Option User
  loading : Bool
  error : Option String
deriving DecidableEq, Repr

/-- The message chosen by the catch block of `refetchInitialData`
(src/index.tsx lines 197-202) for a rejection carrying message `emsg`
(the `err instanceof Error` branch; the `TypeError` special case concerns the
browser fetch implementation, outside this embedding). -/
def connectErrorMessage (emsg : String) : String :=
  "Failed to connect: " ++ emsg

/-- `AppProvider.refetchInitialData` (src/index.tsx lines 183-207), parametrised by
the outcomes of the three awaited fetches.  `Promise.all` succeeds iff all three
succeed; on success all three collections are replaced and the error cleared, on
any failure the collections are untouched and the error message set; `finally`
clears `loading` on both paths.  (When several fetches fail, `Promise.all`
surfaces one of the rejections; the embedding picks the first in argument order.) -/
def refetchInitialData (st : AppState)
    (usersRes : Except String (List User))
    (attendanceRes : Except String (List Attendance))
    (inventoryRes : Except String (List InventoryItem)) : AppState :=
  match usersRes, attendanceRes, inventoryRes with
  | .ok usersData, .ok attendanceData, .ok inventoryData =>
    { st with users := usersData, attendance := attendanceData,
              inventory := inventoryData, error := none, loading := false }
  | .error e, _, _ => { st with error := some (connectErrorMessage e), loading := false }
  | _, .error e, _ => { st with error := some (connectErrorMessage e), loading := false }
  | _, _, .error e => { st with error := some (connectErrorMessage e), loading := false }

/-! ## Theorems -/

/-- C4: if the Gateway call fails, both Lifecycle operations
(`AppProvider.markAttendance`, `AppProvider.updateAttendanceStatus`) surface the
failure message and leave the attendance state exactly as it was: no partial
write, mutation only follows a successful Gateway result. -/
theorem gateway_failure_no_partial_write (attendance : List Attendance)
    (attId : String) (e : String) :
    AppProvider.markAttendance attendance (.error e) = (attendance, some e) ∧
    AppProvider.updateAttendanceStatus attendance attId (.error e) = (attendance, some e) := by
  constructor <;> rfl

/-- C8: when no record in the mock store carries the requested id,
`mockApi.updateAttendanceStatus` rejects with `Record not found` and the whole
review path leaves both the mock store and the app store unchanged, surfacing
the message. -/
theorem review_absent_id_notFound (acting : User) (mockStore appStore : List Attendance)
    (attId : String) (d : AttendanceStatus)
    (habs : ∀ a ∈ mockStore, a.id ≠ attId) :
    mockApi.updateAttendanceStatus mockStore attId d = .error "Record not found" ∧
    systemReviewAttendance acting mockStore appStore attId d
      = (mockStore, appStore, some "Record not found") := by
  have hnone : mockStore.find? (fun a => a.id == attId) = none := by
    rw [List.find?_eq_none]
    intro a ha
    simpa using habs a ha
  refine ⟨?_, ?_⟩
  · rw [mockApi.updateAttendanceStatus, hnone]
  · rw [systemReviewAttendance, mockApi.updateAttendanceStatus, hnone]
    rfl

/-- Witness for C8 at a concrete input: id `att-99` occurs nowhere in the seed
store, and the review path rejects without touching either store. -/
theorem review_absent_id_notFound_witness :
    mockApi.updateAttendanceStatus mockAttendance "att-99" .approved
      = .error "Record not found" ∧
    systemReviewAttendance
        ⟨"user-1", "Admin User", .admin, "Manager", .monthly, 50000, .active,
          some "https://i.pravatar.cc/150?u=admin"⟩
        mockAttendance mockAttendance "att-99" .approved
      = (mockAttendance, mockAttendance, some "Record not found") :=
  review_absent_id_notFound _ mockAttendance mockAttendance "att-99" .approved
    (by decide)

/-- C9: the admin display ordering is a permutation of the store's records,
sorted by timestamp in descending order; the store's own list is untouched (the
source sorts a spread-copy, and `sortedAttendance` is a pure function of the
list). -/
theorem sortedAttendance_perm_and_sorted (l : List Attendance) :
    (sortedAttendance l).Perm l ∧
    (sortedAttendance l).Pairwise (fun a b => b.timestamp ≤ a.timestamp) := by
  refine ⟨List.mergeSort_perm l _, ?_⟩
  have htrans : ∀ a b c : Attendance,
      decide (b.timestamp ≤ a.timestamp) = true →
      decide (c.timestamp ≤ b.timestamp) = true →
      decide (c.timestamp ≤ a.timestamp) = true := fun _ _ _ hab hbc =>
    decide_eq_true (Nat.le_trans (of_decide_eq_true hbc) (of_decide_eq_true hab))
  have htotal : ∀ a b : Attendance,
      (decide (b.timestamp ≤ a.timestamp) || decide (a.timestamp ≤ b.timestamp))
        = true := by
    intro a b
    rcases Nat.le_total b.timestamp a.timestamp with hle | hle
    · exact (Bool.or_eq_true _ _).mpr (Or.inl (decide_eq_true hle))
    · exact (Bool.or_eq_true _ _).mpr (Or.inr (decide_eq_true hle))
  have hpair := @List.sorted_mergeSort Attendance
    (fun a b : Attendance => decide (b.timestamp ≤ a.timestamp)) htrans htotal l
  exact hpair.imp fun hab => of_decide_eq_true hab

/-- C10: initial data loading is all-or-nothing: `loading` is always cleared;
when all three fetches succeed the three collections are replaced and the error
cleared; when any fetch fails the three collections keep their previous values
and an error message is set. -/
theorem refetch_all_or_nothing (st : AppState)
    (ur : Except String (List User)) (ar : Except String (List Attendance))
    (ir : Except String (List InventoryItem)) :
    (refetchInitialData st ur ar ir).loading = false ∧
    (match ur, ar, ir with
     | .ok u, .ok a, .ok i =>
        refetchInitialData st ur ar ir
          = { st with users := u, attendance := a, inventory := i,
                      error := none, loading := false }
     | _, _, _ =>
        (refetchInitialData st ur ar ir).users = st.users
        ∧ (refetchInitialData st ur ar ir).attendance = st.attendance
        ∧ (refetchInitialData st ur ar ir).inventory = st.inventory
        ∧ ∃ m, (refetchInitialData st ur ar ir).error = some m) := by
  rcases ur with e | u <;> rcases ar with e2 | a <;> rcases ir with e3 | i <;>
    simp [refetchInitialData]

/-- The two failure kinds the specification prescribes for `login`. -/
inductive LoginFailureKind where
  | notFound | inactive
deriving DecidableEq, Repr

/-- C5 counterexample: an absent id (`user-99`) and a terminated identity
(`user-4`, Geeta Devi) make `handleLogin` fail with the *same* single message,
so no reading of the code's failure channel can report `NotFound` for the one
and `Inactive` for the other, as the claim requires. -/
theorem login_single_error_counterexample :
    handleLogin mockUsers "user-99" = .error "This user is terminated or does not exist." ∧
    handleLogin mockUsers "user-4" = .error "This user is terminated or does not exist." ∧
    ¬ ∃ kindOf : String → LoginFailureKind,
        (∀ s, handleLogin mockUsers "user-99" = .error s → kindOf s = .notFound) ∧
        (∀ s, handleLogin mockUsers "user-4" = .error s → kindOf s = .inactive) := by
  have h1 : handleLogin mockUsers "user-99"
      = .error "This user is terminated or does not exist." := rfl
  have h2 : handleLogin mockUsers "user-4"
      = .error "This user is terminated or does not exist." := rfl
  refine ⟨h1, h2, ?_⟩
  rintro ⟨kindOf, hnf, hin⟩
  have e1 := hnf _ h1
  have e2 := hin _ h2
  exact LoginFailureKind.noConfusion (e1.symm.trans e2)

/-- C5 amended: `handleLogin` succeeds (returning the selected user as the new
session holder) iff a user with the selected id exists and is active; every
failure carries the single combined message, which does not distinguish an
absent id from a terminated identity. -/
theorem login_succeeds_iff_exists_active (users : List User) (uid : String)
    (hids : (users.map User.id).Nodup) :
    ((∃ u, handleLogin users uid = .ok u ∧ u ∈ users ∧ u.id = uid ∧ u.status = .active)
      ↔ ∃ u ∈ users, u.id = uid ∧ u.status = .active) ∧
    (∀ e, handleLogin users uid = .error e →
      e = "This user is terminated or does not exist.") := by
  constructor
  · constructor
    · rintro ⟨u, _, hmem, hid, hact⟩
      exact ⟨u, hmem, hid, hact⟩
    · rintro ⟨u, hmem, hid, hact⟩
      rcases hfind : users.find? (fun v => v.id == uid) with _ | v
      · exact absurd (by simp [hid]) (List.find?_eq_none.mp hfind u hmem)
      · have hvid : v.id = uid := by simpa using List.find?_some hfind
        have hvmem : v ∈ users := List.mem_of_find?_eq_some hfind
        have hvu : v = u :=
          List.inj_on_of_nodup_map hids hvmem hmem (by rw [hvid, hid])
        subst hvu
        refine ⟨v, ?_, hvmem, hvid, hact⟩
        rw [handleLogin, hfind]
        simp [hact]
  · intro e he
    rcases hfind : users.find? (fun v => v.id == uid) with _ | v <;>
      simp only [handleLogin, hfind] at he
    · exact (Except.error.inj he).symm
    · by_cases hact : v.status = .active
      · rw [if_pos hact] at he
        exact Except.noConfusion he
      · rw [if_neg hact] at he
        exact (Except.error.inj he).symm

/-- Witness for C5's amended theorem at the seed users and id `user-2`. -/
theorem login_succeeds_iff_exists_active_witness :
    (mockUsers.map User.id).Nodup ∧
    (((∃ u, handleLogin mockUsers "user-2" = .ok u ∧ u ∈ mockUsers
          ∧ u.id = "user-2" ∧ u.status = .active)
        ↔ ∃ u ∈ mockUsers, u.id = "user-2" ∧ u.status = .active) ∧
      (∀ e, handleLogin mockUsers "user-2" = .error e →
        e = "This user is terminated or does not exist.")) :=
  ⟨by decide, login_succeeds_iff_exists_active mockUsers "user-2" (by decide)⟩

/-- C2 counterexample: seed record `att-1` already has terminal status
`approved`, yet `mockApi.updateAttendanceStatus` on it with decision `rejected`
succeeds and overwrites the status — there is no `InvalidTransition` failure and
the terminal status is not protected. -/
theorem review_overwrites_terminal_counterexample :
    (mockAttendance.find? (fun a => a.id == "att-1")).map Attendance.status
      = some .approved ∧
    mockApi.updateAttendanceStatus mockAttendance "att-1" .rejected
      = .ok (⟨"att-1", "user-2", "2024-07-28", 1722157512000, .rejected⟩,
          [⟨"att-1", "user-2", "2024-07-28", 1722157512000, .rejected⟩,
           ⟨"att-2", "user-3", "2024-07-28", 1722157824000, .pending⟩]) := by
  constructor <;> rfl

/-- C2 amended: `updateAttendanceStatus` never inspects the current status: a
review of any record found by id — whatever its status, `pending`, `approved`
or `rejected` — succeeds and overwrites the status with the decision (a silent
overwrite; no `InvalidTransition` error exists in the code).  Terminal statuses
are shielded only by the view layer, whose Approve/Reject actions are rendered
exactly for records whose status is `pending`. -/
theorem review_overwrites_any_status (store : List Attendance) (attId : String)
    (d : AttendanceStatus) (r : Attendance)
    (hf : store.find? (fun a => a.id == attId) = some r) :
    mockApi.updateAttendanceStatus store attId d
      = .ok ({ r with status := d }, mockApi.setStatusFirst store attId d)
    ∧ ∀ a : Attendance, reviewActionsShown a = true ↔ a.status = .pending := by
  constructor
  · rw [mockApi.updateAttendanceStatus, hf]
  · intro a
    simp [reviewActionsShown]

/-- Witness for C2's amended theorem at the seed store, record `att-1`
(status `approved`) and decision `rejected`. -/
theorem review_overwrites_any_status_witness :
    mockAttendance.find? (fun a => a.id == "att-1")
      = some ⟨"att-1", "user-2", "2024-07-28", 1722157512000, .approved⟩ ∧
    (mockApi.updateAttendanceStatus mockAttendance "att-1" .rejected
        = .ok (⟨"att-1", "user-2", "2024-07-28", 1722157512000, .rejected⟩,
            mockApi.setStatusFirst mockAttendance "att-1" .rejected)
      ∧ ∀ a : Attendance, reviewActionsShown a = true ↔ a.status = .pending) :=
  ⟨rfl, review_overwrites_any_status mockAttendance "att-1" .rejected
      ⟨"att-1", "user-2", "2024-07-28", 1722157512000, .approved⟩ rfl⟩

/-- C3 counterexample: with employee Sunita Sharma (`user-2`, not an admin) as
the acting identity, the review path on pending record `att-2` succeeds — no
`Forbidden` failure (the alert channel is `none`) — and the record is mutated
to `approved` in both stores. -/
theorem review_by_employee_succeeds_counterexample :
    (⟨"user-2", "Sunita Sharma", .employee, "Cutter", .daily, 800, .active,
        some "https://i.pravatar.cc/150?u=sunita"⟩ : User).role ≠ .admin ∧
    systemReviewAttendance
        ⟨"user-2", "Sunita Sharma", .employee, "Cutter", .daily, 800, .active,
          some "https://i.pravatar.cc/150?u=sunita"⟩
        mockAttendance mockAttendance "att-2" .approved
      = ([⟨"att-1", "user-2", "2024-07-28", 1722157512000, .approved⟩,
          ⟨"att-2", "user-3", "2024-07-28", 1722157824000, .approved⟩],
         [⟨"att-1", "user-2", "2024-07-28", 1722157512000, .approved⟩,
          ⟨"att-2", "user-3", "2024-07-28", 1722157824000, .approved⟩],
         none) := by
  constructor
  · decide
  · rfl

/-- C3 amended: neither `mockApi.updateAttendanceStatus` nor
`AppProvider.updateAttendanceStatus` consults the acting identity, so the review
operation behaves identically for every acting identity — there is no role check
and no `Forbidden` error.  Non-admins are kept away from reviewing only by the
view layer: an identity whose role is `employee` is routed to the mark-present
panel, never to the admin table carrying the Approve/Reject actions. -/
theorem review_ignores_acting_role (acting other : User)
    (mockStore appStore : List Attendance) (attId : String)
    (d : AttendanceStatus) (today : String)
    (hrole : acting.role = .employee) :
    systemReviewAttendance acting mockStore appStore attId d
      = systemReviewAttendance other mockStore appStore attId d ∧
    ∃ btn st, attendanceManagementView acting appStore today
      = .employeeView btn st := by
  refine ⟨rfl, ?_⟩
  rcases h : appStore.find? (fun a => a.userId == acting.id && a.date == today)
    with _ | a
  · exact ⟨true, none, by simp [attendanceManagementView, hrole, h]⟩
  · exact ⟨false, some a.status, by simp [attendanceManagementView, hrole, h]⟩

/-- Witness for C3's amended theorem: employee Sunita Sharma versus the admin
user, on the seed store and record `att-2`. -/
theorem review_ignores_acting_role_witness :
    (⟨"user-2", "Sunita Sharma", .employee, "Cutter", .daily, 800, .active,
        some "https://i.pravatar.cc/150?u=sunita"⟩ : User).role = .employee ∧
    (systemReviewAttendance
        ⟨"user-2", "Sunita Sharma", .employee, "Cutter", .daily, 800, .active,
          some "https://i.pravatar.cc/150?u=sunita"⟩
        mockAttendance mockAttendance "att-2" .approved
      = systemReviewAttendance
          ⟨"user-1", "Admin User", .admin, "Manager", .monthly, 50000, .active,
            some "https://i.pravatar.cc/150?u=admin"⟩
          mockAttendance mockAttendance "att-2" .approved ∧
      ∃ btn st, attendanceManagementView
          ⟨"user-2", "Sunita Sharma", .employee, "Cutter", .daily, 800, .active,
            some "https://i.pravatar.cc/150?u=sunita"⟩
          mockAttendance "2024-07-28"
        = .employeeView btn st) :=
  ⟨rfl, review_ignores_acting_role
      ⟨"user-2", "Sunita Sharma", .employee, "Cutter", .daily, 800, .active,
        some "https://i.pravatar.cc/150?u=sunita"⟩
      ⟨"user-1", "Admin User", .admin, "Manager", .monthly, 50000, .active,
        some "https://i.pravatar.cc/150?u=admin"⟩
      mockAttendance mockAttendance "att-2" .approved "2024-07-28" rfl⟩

/-- C1 counterexample: the seed store already holds record `att-1` for
(`user-2`, `2024-07-28`), so `alreadyMarked` is true; yet a further
`markPresent` by Sunita Sharma on that day succeeds with the success alert and
leaves the mock store with two records for that (owner, date) pair — no
`AlreadyMarked` failure exists and the store is not left unchanged. -/
theorem markPresent_duplicate_appends_counterexample :
    mockApi.alreadyMarked mockAttendance "user-2" "2024-07-28" = true ∧
    (systemMarkAttendance mockAttendance mockAttendance
        ⟨"user-2", "Sunita Sharma", .employee, "Cutter", .daily, 800, .active,
          some "https://i.pravatar.cc/150?u=sunita"⟩
        "2024-07-28" 1722160000000).2.2.2
      = some "Attendance marked successfully! Awaiting admin approval." ∧
    (((systemMarkAttendance mockAttendance mockAttendance
        ⟨"user-2", "Sunita Sharma", .employee, "Cutter", .daily, 800, .active,
          some "https://i.pravatar.cc/150?u=sunita"⟩
        "2024-07-28" 1722160000000).2.1).filter
        (fun a => a.userId == "user-2" && a.date == "2024-07-28")).length = 2 := by
  refine ⟨rfl, rfl, rfl⟩

/-- C1 amended: `markPresent` computes the duplicate check but ignores its
result (the guard's body is empty): even when a record for (owner, today)
already exists, the call succeeds, appends a new record to both stores and
alerts success, after which the store holds at least two records for that
(owner, date) pair.  Duplicate submission is prevented only by the view layer,
which for an employee stops rendering the mark button once such a record
exists. -/
theorem markPresent_duplicate_still_appends (mockStore appStore : List Attendance)
    (u : User) (today : String) (nowMs : Nat)
    (hdup : mockApi.alreadyMarked mockStore u.id today = true) :
    ∃ rec : Attendance,
      systemMarkAttendance mockStore appStore u today nowMs
        = (rec, mockStore ++ [rec], appStore ++ [rec],
            some "Attendance marked successfully! Awaiting admin approval.")
      ∧ rec.userId = u.id ∧ rec.date = today
      ∧ 2 ≤ ((mockStore ++ [rec]).filter
            (fun a => a.userId == u.id && a.date == today)).length
      ∧ (u.role = .employee →
          ∃ st, attendanceManagementView u (appStore ++ [rec]) today
            = .employeeView false st) := by
  refine ⟨⟨"att-" ++ toString nowMs, u.id, today, nowMs, .pending⟩,
    rfl, rfl, rfl, ?_, ?_⟩
  · rw [List.filter_append]
    rw [mockApi.alreadyMarked, List.any_eq_true] at hdup
    obtain ⟨a, ha, hpa⟩ := hdup
    have h1 : 0 < (mockStore.filter
        (fun a => a.userId == u.id && a.date == today)).length :=
      List.length_pos_of_mem (List.mem_filter.mpr ⟨ha, hpa⟩)
    have h2 : ([(⟨"att-" ++ toString nowMs, u.id, today, nowMs, .pending⟩ :
        Attendance)].filter (fun a => a.userId == u.id && a.date == today)).length
        = 1 := by simp
    rw [List.length_append, h2]
    omega
  · intro hrole
    rcases h : (appStore ++ [(⟨"att-" ++ toString nowMs, u.id, today, nowMs,
        .pending⟩ : Attendance)]).find?
        (fun a => a.userId == u.id && a.date == today) with _ | a
    · have := List.find?_eq_none.mp h
        ⟨"att-" ++ toString nowMs, u.id, today, nowMs, .pending⟩ (by simp)
      simp at this
    · exact ⟨some a.status, by simp [attendanceManagementView, hrole, h]⟩

/-- Witness for C1's amended theorem: Sunita Sharma marking again on
`2024-07-28` over the seed store, at clock value 99. -/
theorem markPresent_duplicate_still_appends_witness :
    mockApi.alreadyMarked mockAttendance "user-2" "2024-07-28" = true ∧
    ∃ rec : Attendance,
      systemMarkAttendance mockAttendance mockAttendance
          ⟨"user-2", "Sunita Sharma", .employee, "Cutter", .daily, 800, .active,
            some "https://i.pravatar.cc/150?u=sunita"⟩
          "2024-07-28" 99
        = (rec, mockAttendance ++ [rec], mockAttendance ++ [rec],
            some "Attendance marked successfully! Awaiting admin approval.")
      ∧ rec.userId = "user-2" ∧ rec.date = "2024-07-28"
      ∧ 2 ≤ ((mockAttendance ++ [rec]).filter
            (fun a => a.userId == "user-2" && a.date == "2024-07-28")).length
      ∧ ((⟨"user-2", "Sunita Sharma", .employee, "Cutter", .daily, 800, .active,
            some "https://i.pravatar.cc/150?u=sunita"⟩ : User).role = .employee →
          ∃ st, attendanceManagementView
              ⟨"user-2", "Sunita Sharma", .employee, "Cutter", .daily, 800,
                .active, some "https://i.pravatar.cc/150?u=sunita"⟩
              (mockAttendance ++ [rec]) "2024-07-28"
            = .employeeView false st) :=
  ⟨by decide, markPresent_duplicate_still_appends mockAttendance mockAttendance
      ⟨"user-2", "Sunita Sharma", .employee, "Cutter", .daily, 800, .active,
        some "https://i.pravatar.cc/150?u=sunita"⟩
      "2024-07-28" 99 (by decide)⟩

/-- C6 counterexample: the generated id is `att-` followed by the clock
milliseconds, so it is not guaranteed fresh: over a store holding a record with
id `att-100` (created at clock value 100, owned by `user-3`), Sunita Sharma —
who has no record for today — marks present at clock value 100 and the new
record reuses the existing id, leaving two records with id `att-100`. -/
theorem markPresent_id_collision_counterexample :
    mockApi.alreadyMarked
        [⟨"att-100", "user-3", "2024-07-28", 100, .pending⟩]
        "user-2" "2024-07-28" = false ∧
    (mockApi.markAttendance
        [⟨"att-100", "user-3", "2024-07-28", 100, .pending⟩]
        "user-2" "2024-07-28" 100).1.id = "att-100" ∧
    (((mockApi.markAttendance
        [⟨"att-100", "user-3", "2024-07-28", 100, .pending⟩]
        "user-2" "2024-07-28" 100).2).filter
        (fun a => a.id == "att-100")).length = 2 := by
  refine ⟨rfl, rfl, rfl⟩

/-- C6 amended: for an acting identity with no record for today, `markPresent`
constructs exactly one new record with id `att-` ++ the current epoch
milliseconds — an id that is unique only when no existing record carries that
same id (records created in the same clock millisecond collide) — with
`ownerId` the acting identity's id, `date = today`, `timestamp = now` and
status `pending`; it appends the record to both stores (each growing by exactly
one) and returns it. -/
theorem markPresent_creates_pending_record (mockStore appStore : List Attendance)
    (u : User) (today : String) (nowMs : Nat)
    (_hnone : ∀ a ∈ mockStore, ¬(a.userId = u.id ∧ a.date = today))
    (hfresh : ∀ a ∈ mockStore, a.id ≠ "att-" ++ toString nowMs) :
    ∃ rec : Attendance,
      systemMarkAttendance mockStore appStore u today nowMs
        = (rec, mockStore ++ [rec], appStore ++ [rec],
            some "Attendance marked successfully! Awaiting admin approval.")
      ∧ rec.id = "att-" ++ toString nowMs ∧ rec.userId = u.id ∧ rec.date = today
      ∧ rec.timestamp = nowMs ∧ rec.status = .pending
      ∧ (∀ a ∈ mockStore, a.id ≠ rec.id)
      ∧ (mockStore ++ [rec]).length = mockStore.length + 1
      ∧ (appStore ++ [rec]).length = appStore.length + 1 := by
  refine ⟨⟨"att-" ++ toString nowMs, u.id, today, nowMs, .pending⟩,
    rfl, rfl, rfl, rfl, rfl, rfl, hfresh, by simp, by simp⟩

/-- Witness for C6's amended theorem: Ramesh Kumar (`user-3`, no record on
`2024-07-29`) marks present over the seed store at clock value 101. -/
theorem markPresent_creates_pending_record_witness :
    (∀ a ∈ mockAttendance, ¬(a.userId = "user-3" ∧ a.date = "2024-07-29")) ∧
    (∀ a ∈ mockAttendance, a.id ≠ "att-" ++ toString 101) ∧
    ∃ rec : Attendance,
      systemMarkAttendance mockAttendance mockAttendance
          ⟨"user-3", "Ramesh Kumar", .employee, "Stitcher", .piece_rate, 15,
            .active, some "https://i.pravatar.cc/150?u=ramesh"⟩
          "2024-07-29" 101
        = (rec, mockAttendance ++ [rec], mockAttendance ++ [rec],
            some "Attendance marked successfully! Awaiting admin approval.")
      ∧ rec.id = "att-" ++ toString 101 ∧ rec.userId = "user-3"
      ∧ rec.date = "2024-07-29" ∧ rec.timestamp = 101 ∧ rec.status = .pending
      ∧ (∀ a ∈ mockAttendance, a.id ≠ rec.id)
      ∧ (mockAttendance ++ [rec]).length = mockAttendance.length + 1
      ∧ (mockAttendance ++ [rec]).length = mockAttendance.length + 1 :=
  ⟨by decide, by decide,
    markPresent_creates_pending_record mockAttendance mockAttendance
      ⟨"user-3", "Ramesh Kumar", .employee, "Stitcher", .piece_rate, 15,
        .active, some "https://i.pravatar.cc/150?u=ramesh"⟩
      "2024-07-29" 101 (by decide) (by decide)⟩

/-- Helper: over a store with pairwise-distinct ids, the in-place first-match
overwrite coincides with replacing every matching record. -/
theorem setStatusFirst_eq_map_of_nodup (s : List Attendance) (attId : String)
    (d : AttendanceStatus) (hn : (s.map Attendance.id).Nodup) :
    mockApi.setStatusFirst s attId d
      = s.map fun a => if a.id == attId then { a with status := d } else a := by
  induction s with
  | nil => rfl
  | cons a rest ih =>
    rw [List.map_cons, List.nodup_cons] at hn
    obtain ⟨hnotin, hrest⟩ := hn
    simp only [mockApi.setStatusFirst, List.map_cons]
    by_cases h : (a.id == attId) = true
    · have hid : a.id = attId := by simpa using h
      have hrid : ∀ b ∈ rest,
          (if b.id == attId then { b with status := d } else b) = b := by
        intro b hb
        have hbne : b.id ≠ attId := by
          intro hbid
          apply hnotin
          have hmm := List.mem_map_of_mem Attendance.id hb
          rw [hbid, ← hid] at hmm
          exact hmm
        simp [hbne]
      rw [if_pos h, if_pos h, List.map_congr_left hrid, List.map_id']
    · rw [if_neg h, if_neg h, ih hrest]

/-- Helper: when the store's ids are pairwise distinct, the record returned by
the id lookup is the only record with that id. -/
theorem find?_id_unique (s : List Attendance) (attId : String) (r : Attendance)
    (hn : (s.map Attendance.id).Nodup)
    (hf : s.find? (fun a => a.id == attId) = some r) :
    ∀ a ∈ s, a.id = attId → a = r := by
  intro a ha hid
  have hrmem : r ∈ s := List.mem_of_find?_eq_some hf
  have hrid : r.id = attId := by simpa using List.find?_some hf
  exact List.inj_on_of_nodup_map hn ha hrmem (by rw [hid, hrid])

/-- C7: on a synced state whose ids are pairwise distinct, a successful review
changes exactly the targeted record's status: the mock store and the app store
agree afterwards, the record count is preserved, and pointwise every position
either keeps its record untouched (id differs from the target) or keeps its
id, ownerId, date and timestamp with only the status set to the decision. -/
theorem review_changes_only_target_status (acting : User) (s : List Attendance)
    (attId : String) (d : AttendanceStatus) (r : Attendance)
    (hn : (s.map Attendance.id).Nodup)
    (hf : s.find? (fun a => a.id == attId) = some r) :
    ∃ as2 : List Attendance,
      systemReviewAttendance acting s s attId d = (as2, as2, none)
      ∧ as2.length = s.length
      ∧ ∀ i : Fin s.length, ∃ hi : i.1 < as2.length,
          as2.get ⟨i.1, hi⟩
            = if (s.get i).id = attId then { s.get i with status := d }
              else s.get i := by
  have huniq := find?_id_unique s attId r hn hf
  refine ⟨s.map fun a => if a.id == attId then { a with status := d } else a,
    ?_, by simp, ?_⟩
  · have hmapeq :
        (s.map fun att => if att.id == attId then { r with status := d } else att)
          = s.map fun a => if a.id == attId then { a with status := d } else a := by
      apply List.map_congr_left
      intro a ha
      by_cases h : (a.id == attId) = true
      · have har : a = r := huniq a ha (by simpa using h)
        rw [if_pos h, if_pos h, har]
      · rw [if_neg h, if_neg h]
    simp only [systemReviewAttendance, mockApi.updateAttendanceStatus, hf,
      AppProvider.updateAttendanceStatus]
    rw [setStatusFirst_eq_map_of_nodup s attId d hn, hmapeq]
  · intro i
    have hi : i.1 <
        (s.map fun a => if a.id == attId then { a with status := d } else a).length := by
      simp [i.2]
    refine ⟨hi, ?_⟩
    have hget :
        (s.map fun a => if a.id == attId then { a with status := d } else a).get ⟨i.1, hi⟩
          = (fun a => if a.id == attId then { a with status := d } else a) (s.get i) := by
      simp [List.get_eq_getElem, List.getElem_map]
    rw [hget]
    by_cases h : (s.get i).id = attId
    · simp [h]
    · simp [h]

/-- Witness for C7 at a concrete input: the admin reviews seed record `att-2`
(the pending one) as approved over the seed store. -/
theorem review_changes_only_target_status_witness :
    (mockAttendance.map Attendance.id).Nodup ∧
    mockAttendance.find? (fun a => a.id == "att-2")
      = some ⟨"att-2", "user-3", "2024-07-28", 1722157824000, .pending⟩ ∧
    ∃ as2 : List Attendance,
      systemReviewAttendance
          ⟨"user-1", "Admin User", .admin, "Manager", .monthly, 50000, .active,
            some "https://i.pravatar.cc/150?u=admin"⟩
          mockAttendance mockAttendance "att-2" .approved
        = (as2, as2, none)
      ∧ as2.length = mockAttendance.length
      ∧ ∀ i : Fin mockAttendance.length, ∃ hi : i.1 < as2.length,
          as2.get ⟨i.1, hi⟩
            = if (mockAttendance.get i).id = "att-2"
              then { mockAttendance.get i with status := .approved }
              else mockAttendance.get i :=
  ⟨by decide, rfl,
    review_changes_only_target_status
      ⟨"user-1", "Admin User", .admin, "Manager", .monthly, 50000, .active,
        some "https://i.pravatar.cc/150?u=admin"⟩
      mockAttendance "att-2" .approved
      ⟨"att-2", "user-3", "2024-07-28", 1722157824000, .pending⟩
      (by decide) rfl⟩
